import Mathlib

/-!
Verification of `optional_python` (src/optional_python/Optional.py), a
Java-style `Optional` container for Python.

Modelling choices, all taken from the source file:
* A Python value of nominal type `T` is modelled as `Option α`: Python's
  universal absence marker `None` is Lean's `none`, every non-`None` value
  is `some v` with `v : α`.
* The class holds a single slot `self._obj` set in `__init__`; we model the
  instance as a structure with that one field.
* Methods taking user callbacks (`map`, `filter`, `if_present`,
  `or_else_get`, `or_else_throw`) are modelled with state-passing callbacks
  `σ → … → σ × result`, so that the number and order of callback
  invocations is observable in the resulting state: a method invokes a
  callback exactly when the callback's state transformation is applied.
* Python exceptions are modelled by an exception class plus message;
  fallible methods return `Except PyErr`.
-/

namespace OptionalPython

/-- The Python exception classes that appear in `Optional.py`:
`TypeError` (raised by `get` on an empty optional, by the class-body
`__call__`, and by the default argument path of `or_else_throw`) and
`AttributeError` (raised by `of` on `None`). -/
inductive ExcClass
  | typeError
  | attributeError
  deriving DecidableEq, Repr

/-- A raised Python exception: its class and its message. -/
structure PyErr where
  cls : ExcClass
  msg : String
  deriving DecidableEq, Repr

/-- `class Optional(Generic[T])`: the container.  Its only instance
attribute is `self._obj`, assigned once in `__init__`.  The slot holds an
arbitrary Python value: either Python `None` (`none`) or a proper value
`some v`. -/
structure Optional (α : Type) where
  _obj : Option α
  deriving DecidableEq, Repr

namespace Optional

/-- The Python expression `Optional(x)` (direct instantiation, bypassing
the factories).  In Python, calling a class object looks the `__call__`
special method up on the class's *metaclass*.  `Optional` declares no
metaclass, so `type(Optional) is type` and `Optional(x)` runs
`type.__call__`, i.e. `Optional.__new__` followed by
`Optional.__init__(self, x)`, which stores `x` in `self._obj`.  The
`__call__` defined in the class body at lines 24-27 is an attribute of
`Optional` itself, so it intercepts calls to *instances* of `Optional`,
not calls to the class: it never runs here.  Hence direct instantiation
succeeds and returns a container whose slot is `x`. -/
def directCall {α : Type} (x : Option α) : Except PyErr (Optional α) :=
  .ok ⟨x⟩

/-- `get(self)`: `if self._obj is None: raise TypeError("Optional contains
no object")` else `return self._obj`. -/
def get {α : Type} (self : Optional α) : Except PyErr α :=
  match self._obj with
  | none => .error ⟨.typeError, "Optional contains no object"⟩
  | some v => .ok v

/-- `is_present(self)`: `return self._obj is not None`. -/
def is_present {α : Type} (self : Optional α) : Bool :=
  self._obj.isSome

/-- `is_empty(self)`: `return self._obj is None`. -/
def is_empty {α : Type} (self : Optional α) : Bool :=
  self._obj.isNone

/-- `if_present(self, consumer)`: `if self.is_present():
consumer(self._obj)`.  The consumer returns nothing, so it is modelled as
a pure state transformation. -/
def if_present {σ α : Type} (self : Optional α) (consumer : σ → α → σ)
    (s : σ) : σ :=
  match self._obj with
  | some v => consumer s v
  | none => s

/-- `of_nullable(cls, obj)`: `return cls(obj)` — stores `obj` unchecked. -/
def of_nullable {α : Type} (obj : Option α) : Optional α :=
  ⟨obj⟩

/-- `empty(cls)`: `return cls(None)`. -/
def empty {α : Type} : Optional α :=
  ⟨none⟩

/-- `of(cls, obj)`: `if obj is None: raise AttributeError("The object
provided is None, not allowed")` else `return cls(obj)`. -/
def of {α : Type} (obj : Option α) : Except PyErr (Optional α) :=
  match obj with
  | none => .error ⟨.attributeError, "The object provided is None, not allowed"⟩
  | some _ => .ok ⟨obj⟩

/-- `map(self, function)`: `if self.is_present(): new_obj =
function(self._obj); return Optional.of_nullable(new_obj) else: return
Optional.empty()`.  `is_present` is exactly the test that `self._obj` is
not `None`, so we match on the slot; the callback receives the held
(non-`None`) value and may return any Python value, including `None`. -/
def map {σ α β : Type} (self : Optional α) (function : σ → α → σ × Option β)
    (s : σ) : σ × Optional β :=
  match self._obj with
  | some v =>
    let r := function s v
    (r.1, of_nullable r.2)
  | none => (s, empty)

/-- `filter(self, predicate)`: `if self.is_empty() or
predicate(self._obj): return self else: return Optional.empty()`.
Python's `or` short-circuits, so when the optional is empty the predicate
is not evaluated and `self` itself is returned. -/
def filter {σ α : Type} (self : Optional α) (predicate : σ → α → σ × Bool)
    (s : σ) : σ × Optional α :=
  match self._obj with
  | none => (s, self)
  | some v =>
    let r := predicate s v
    (r.1, if r.2 then self else empty)

/-- `or_else(self, other_value)`: `if self.is_present(): return self._obj
else: return other_value`. -/
def or_else {α : Type} (self : Optional α) (other_value : Option α) :
    Option α :=
  match self._obj with
  | some v => some v
  | none => other_value

/-- `or_else_get(self, provider)`: `if self.is_present(): return self._obj
else: return provider()`. -/
def or_else_get {σ α : Type} (self : Optional α) (provider : σ → σ × Option α)
    (s : σ) : σ × Option α :=
  match self._obj with
  | some v => (s, some v)
  | none => provider s

/-- The default argument of `or_else_throw`, the Python callable
`TypeError.__new__`.  `BaseException.__new__` requires at least the class
argument, so calling it with no arguments does not return an exception
object: the call itself raises a `TypeError` complaining about missing
arguments.  A provider is modelled as a stateful computation that either
raises (`Except.error`) or returns an exception object (`Except.ok`);
this one always raises. -/
def default_exception_provider {σ : Type} (s : σ) : σ × Except PyErr PyErr :=
  (s, .error ⟨.typeError, "TypeError.__new__(): not enough arguments"⟩)

/-- `or_else_throw(self, exception_provider=TypeError.__new__)`:
`if self.is_empty(): raise exception_provider() else: return self._obj`.
Evaluating `exception_provider()` may itself raise (that exception
propagates), otherwise the object it returns is raised. -/
def or_else_throw {σ α : Type} (self : Optional α)
    (exception_provider : σ → σ × Except PyErr PyErr) (s : σ) :
    σ × Except PyErr α :=
  match self._obj with
  | none =>
    let r := exception_provider s
    match r.2 with
    | .error e => (r.1, .error e)
    | .ok e => (r.1, .error e)
  | some v => (s, .ok v)

/-- Python's function composition `compose(g, f) = lambda x: g(f(x))`. -/
def pyCompose {α β γ : Type} (g : β → γ) (f : α → β) : α → γ :=
  fun x => g (f x)

/-- A total Python function that never returns `None`, lifted to a
state-passing callback that records nothing in the state. -/
def liftPure {σ α β : Type} (f : α → β) : σ → α → σ × Option β :=
  fun s a => (s, some (f a))

theorem isPresent_iff_slot_ne_none {α : Type} (o : Optional α) :
    is_present o = true ↔ o._obj ≠ none := by
  simp [is_present, Option.isSome_iff_ne_none]

theorem isEmpty_iff_slot_eq_none {α : Type} (o : Optional α) :
    is_empty o = true ↔ o._obj = none := by
  simp [is_empty, Option.isNone_iff_eq_none]

/-- Claim C1 (code bug evidence): the direct call `Optional("abcd")`,
bypassing the three factories, does NOT raise the construction-not-permitted
`TypeError`: it succeeds and returns a present container holding `"abcd"`,
because the guarding `__call__` sits in the class body instead of a
metaclass and therefore only intercepts calls to instances. -/
theorem direct_construction_succeeds :
    directCall (some "abcd") = .ok (⟨some "abcd"⟩ : Optional String) ∧
    is_present (⟨some "abcd"⟩ : Optional String) = true :=
  ⟨rfl, rfl⟩

/-- Claim C2: `or_else_throw()` with the default `exception_provider`
(`TypeError.__new__`) on an empty optional raises an error of the same
exception class (`TypeError`) as the missing-value error `get()` raises on
an empty optional, and leaves the caller's state untouched apart from the
provider call; on a present optional it returns the held value with the
state unchanged, i.e. without invoking the provider. -/
theorem or_else_throw_default_and_present {σ α : Type} (s : σ) (v : α)
    (p : σ → σ × Except PyErr PyErr) :
    (∃ e₁ e₂ : PyErr,
      or_else_throw (empty : Optional α) default_exception_provider s
        = (s, .error e₁) ∧
      get (empty : Optional α) = .error e₂ ∧
      e₁.cls = .typeError ∧ e₂.cls = .typeError ∧ e₁.cls = e₂.cls) ∧
    or_else_throw (⟨some v⟩ : Optional α) p s = (s, .ok v) :=
  ⟨⟨⟨.typeError, "TypeError.__new__(): not enough arguments"⟩,
    ⟨.typeError, "Optional contains no object"⟩,
    rfl, rfl, rfl, rfl, rfl⟩, rfl⟩

/-- Claim C3: `of` raises an `AttributeError` (the IllegalArgument-class
error) exactly when its argument is the absence-marker `None`; for every
non-marker value `v`, `of v` succeeds with a present container whose
`get` returns `v`. -/
theorem of_spec {α : Type} (x : Option α) (v : α) :
    (∃ e : PyErr, of (none : Option α) = .error e ∧ e.cls = .attributeError) ∧
    ((∃ e : PyErr, of x = .error e) ↔ x = none) ∧
    (∃ o : Optional α, of (some v) = .ok o ∧ is_present o = true ∧
      get o = .ok v) := by
  refine ⟨⟨⟨.attributeError, "The object provided is None, not allowed"⟩, rfl, rfl⟩,
    ?_, ⟨⟨some v⟩, rfl, rfl, rfl⟩⟩
  cases x with
  | none => simp [of]
  | some w => simp [of]

/-- Claim C4: the container returned by `empty()` is not present, is
empty, and its `get()` raises the missing-value `TypeError` with message
`Optional contains no object`; every present container returns its held
value from `get()` without error. -/
theorem empty_and_get_spec {α : Type} (v : α) :
    is_present (empty : Optional α) = false ∧
    is_empty (empty : Optional α) = true ∧
    get (empty : Optional α)
      = .error ⟨.typeError, "Optional contains no object"⟩ ∧
    get (⟨some v⟩ : Optional α) = .ok v :=
  ⟨rfl, rfl, rfl, rfl⟩

/-- Claim C5: invariant — `is_present` holds exactly when the internal
slot is not the absence-marker (and `is_empty` exactly when it is), for
every container, in particular for the outputs of `of`, `of_nullable`,
`empty`, `map` and `filter`; a held value `some v` is never the marker
`none`, so a present value is never confused with emptiness. -/
theorem held_value_never_marker {σ α β : Type} (o : Optional α)
    (x : Option α) (v : α) (f : σ → α → σ × Option β)
    (p : σ → α → σ × Bool) (s : σ) :
    (is_present o = true ↔ o._obj ≠ none) ∧
    (is_empty o = true ↔ o._obj = none) ∧
    (is_present (of_nullable x) = true ↔ x ≠ none) ∧
    is_empty (empty : Optional α) = true ∧
    of (some v) = .ok (of_nullable (some v)) ∧
    (of_nullable (some v))._obj ≠ none ∧
    (is_present (map o f s).2 = true ↔ ((map o f s).2)._obj ≠ none) ∧
    (is_present (filter o p s).2 = true ↔ ((filter o p s).2)._obj ≠ none) := by
  refine ⟨isPresent_iff_slot_ne_none o, isEmpty_iff_slot_eq_none o,
    isPresent_iff_slot_ne_none (of_nullable x), rfl, rfl, ?_,
    isPresent_iff_slot_ne_none _, isPresent_iff_slot_ne_none _⟩
  simp [of_nullable]

/-- Claim C6: `map` on an empty optional returns an empty optional with
the state unchanged (so the function is never invoked); on a present
optional holding `v` the result is exactly one application of the
function to `v`, wrapped with `of_nullable` semantics, and
`of_nullable none` is the empty optional, so a marker result yields an
empty container rather than a container holding the marker. -/
theorem map_spec {σ α β : Type} (f : σ → α → σ × Option β) (s : σ) (v : α) :
    map (empty : Optional α) f s = (s, (empty : Optional β)) ∧
    map (⟨some v⟩ : Optional α) f s = ((f s v).1, of_nullable (f s v).2) ∧
    of_nullable (none : Option β) = (empty : Optional β) :=
  ⟨rfl, rfl, rfl⟩

/-- Claim C7: `filter` on an empty optional returns the very same empty
container with the state unchanged; on a present optional holding `v` it
returns the original container when the predicate yields `true` and the
empty optional when it yields `false`, with the state advanced by exactly
one predicate invocation. -/
theorem filter_spec {σ α : Type} (p : σ → α → σ × Bool) (s : σ) (v : α) :
    filter (empty : Optional α) p s = (s, (empty : Optional α)) ∧
    filter (⟨some v⟩ : Optional α) p s
      = ((p s v).1, if (p s v).2 then (⟨some v⟩ : Optional α) else empty) :=
  ⟨rfl, rfl⟩

/-- Claim C8: map composition law — for functions `f` and `g` that never
produce the absence-marker, mapping `f` then `g` over `of v` equals
mapping their composition `compose(g, f)` over `of v`. -/
theorem map_composition_law {σ α β γ : Type} (f : α → β) (g : β → γ)
    (v : α) (s : σ) :
    of (some v) = .ok (⟨some v⟩ : Optional α) ∧
    map (map (⟨some v⟩ : Optional α) (liftPure f) s).2 (liftPure g)
        (map (⟨some v⟩ : Optional α) (liftPure f) s).1
      = map (⟨some v⟩ : Optional α) (liftPure (pyCompose g f)) s :=
  ⟨rfl, rfl⟩

/-- Claim C9: `or_else_get` on an empty optional is exactly one
invocation of the provider, whose result is returned; on a present
optional holding `v` it returns `v` with the state unchanged, i.e. the
provider is invoked zero times. -/
theorem or_else_get_spec {σ α : Type} (provider : σ → σ × Option α)
    (s : σ) (v : α) :
    or_else_get (empty : Optional α) provider s = provider s ∧
    or_else_get (⟨some v⟩ : Optional α) provider s = (s, some v) :=
  ⟨rfl, rfl⟩

/-- Claim C10: `filter` applied to an empty optional never invokes the
predicate: for every predicate and every starting state, the state after
the call is the starting state (the emptiness test short-circuits the
`or` before the predicate is evaluated). -/
theorem filter_empty_never_invokes_predicate {σ α : Type}
    (p : σ → α → σ × Bool) (s : σ) :
    (filter (empty : Optional α) p s).1 = s :=
  rfl

end Optional

end OptionalPython
